import Mathlib

/-!
A shallow embedding of src/functional-sample.js: a password-rule verifier
built from predicate rules, with eager rule-set validation and an
attempted error-containment wrapper.  JavaScript exceptions are modelled
with Except JsError, and a JS value that may be null is modelled with
Option.  Rules return verdict objects; a rule collection may contain
non-function entries, which throw a TypeError when called.
-/

namespace FunctionalSample

/-- A JavaScript exception: either a plain Error with a message or a
TypeError. -/
inductive JsError where
  | error (msg : String)
  | typeError (msg : String)
deriving DecidableEq

/-- The verdict object produced by a rule: the JS object with passed true
and no reason field, or passed false together with a reason.  An absent
reason field is modelled as none. -/
structure Verdict where
  passed : Bool
  reason : Option String := none
deriving DecidableEq

variable {α : Type}

/-- An entry of a rule collection: either a callable rule (a function from
the input to a verdict, possibly throwing) or a non-function value such as
the bare string supplied at line 56 of the source. -/
inductive RuleEntry (α : Type) where
  | fn (rule : α → Except JsError Verdict)
  | nonFn (value : String)

/-- The JS check typeof rule equals "function". -/
def RuleEntry.isFunction : RuleEntry α → Bool
  | RuleEntry.fn _ => true
  | RuleEntry.nonFn _ => false

/-- Calling a rule entry: calling a non-function value throws a TypeError
(line 57 of the source); a function entry runs the rule itself. -/
def callRule (r : RuleEntry α) (input : α) : Except JsError Verdict :=
  match r with
  | RuleEntry.fn rule => rule input
  | RuleEntry.nonFn _ => Except.error (JsError.typeError "rule is not a function")

/-- Source line 15: verify takes a criteria predicate and a reason and
returns the rule mapping an input to the passed verdict when the criteria
holds and to the failed verdict carrying the reason otherwise.  The
criteria itself may throw, which is not caught at this layer. -/
def verify (criteria : α → Except JsError Bool) (reason : String) :
    α → Except JsError Verdict :=
  fun input =>
    (criteria input).map (fun b =>
      if b then { passed := true } else { passed := false, reason := some reason })

/-- Source lines 72-74: validateRules throws Error with message "Rules must
be a function" when some entry of the collection is not a function. -/
def validateRules (rules : List (RuleEntry α)) : Except JsError Unit :=
  if rules.any (fun rule => ! rule.isFunction) then
    Except.error (JsError.error "Rules must be a function")
  else Except.ok ()

/-- The JS expression rules.map applied to the callback running each rule on
the input: Array.prototype.map applies the callback left to right, and the
first exception aborts the whole map. -/
def mapRules (rules : List (RuleEntry α)) (input : α) :
    Except JsError (List Verdict) :=
  match rules with
  | [] => Except.ok []
  | r :: rest =>
    match callRule r input with
    | Except.error e => Except.error e
    | Except.ok vd =>
      match mapRules rest input with
      | Except.error e => Except.error e
      | Except.ok vds => Except.ok (vd :: vds)

/-- Source lines 4-11: the standalone two-argument verifyPassword, a
map-filter-map pipeline over the rules. -/
def verifyPassword (rules : List (RuleEntry α)) (input : α) :
    Except JsError (List (Option String)) :=
  (mapRules rules input).map (fun results =>
    (results.filter (fun result => ! result.passed)).map (fun failed => failed.reason))

/-- Source lines 25-32: the first builder, which closes over the rules
without validating them. -/
def buildPasswordVerifier_v1 (rules : List (RuleEntry α)) :
    α → Except JsError (List (Option String)) :=
  fun input =>
    (mapRules rules input).map (fun results =>
      (results.filter (fun result => ! result.passed)).map (fun failed => failed.reason))

/-- Source lines 85-91: the final buildPasswordVerifier, which validates the
rule collection eagerly and then returns the verification closure. -/
def buildPasswordVerifier (rules : List (RuleEntry α)) :
    Except JsError (α → Except JsError (List (Option String))) :=
  match validateRules rules with
  | Except.error e => Except.error e
  | Except.ok _ => Except.ok (fun input =>
      (mapRules rules input).map (fun results =>
        (results.filter (fun result => ! result.passed)).map (fun failed => failed.reason)))

/-- A dynamic JavaScript value, as needed by errorSafe and the final
buidPasswordVerifier: undefined, a string, an array, or a function.  A JS
function accepts any argument count; in this file calls occur either with
no argument (modelled none) or with a caught error (modelled some err). -/
inductive JsVal where
  | undef
  | str (s : String)
  | list (xs : List JsVal)
  | fn (f : Option JsError → Except JsError JsVal)

/-- Calling a JS value: calling a non-function throws a TypeError. -/
def jsCall (callee : JsVal) (arg : Option JsError) : Except JsError JsVal :=
  match callee with
  | JsVal.fn f => f arg
  | _ => Except.error (JsError.typeError "is not a function")

/-- Source lines 107-113: errorSafe calls func inside a try block and
discards its value, so on success the function falls through and returns
undefined; only the catch branch returns a value, namely the result of
mapper applied to the caught error, whose own exception propagates. -/
def errorSafe (func mapper : JsVal) : Except JsError JsVal :=
  match jsCall func none with
  | Except.ok _ => Except.ok JsVal.undef
  | Except.error err => jsCall mapper (some err)

/-- The JS value of one entry of a computed reason list: the string, or
undefined when the reason field was absent. -/
def jsOfReason : Option String → JsVal
  | some s => JsVal.str s
  | none => JsVal.undef

/-- The JS array value of a computed reason list. -/
def jsOfReasons (reasons : List (Option String)) : JsVal :=
  JsVal.list (reasons.map jsOfReason)

/-- Source lines 115-124: buidPasswordVerifier (sic).  The strategy constant
runs the whole pipeline eagerly, so any rule exception is thrown right
there, before errorSafe is reached; errorSafe is then called with the
computed array as func and with the array holding the string "Verification
failed" as mapper, neither of which is a function. -/
def buidPasswordVerifier (rules : List (RuleEntry α)) :
    Except JsError (α → Except JsError JsVal) :=
  match validateRules rules with
  | Except.error e => Except.error e
  | Except.ok _ => Except.ok (fun input =>
      match (mapRules rules input).map (fun results =>
          (results.filter (fun result => ! result.passed)).map (fun failed => failed.reason)) with
      | Except.error e => Except.error e
      | Except.ok strategy =>
          errorSafe (jsOfReasons strategy) (JsVal.list [JsVal.str "Verification failed"]))

/-- JS String.prototype.toLowerCase, for the ASCII strings used here. -/
def jsToLowerCase (s : String) : String := String.mk (s.data.map Char.toLower)

/-- Criteria of source line 37: input truthy and input.length above six.  A
null input is falsy, so the conjunction yields the falsy null and the
ternary in verify coerces it to false; for a string the result is the
boolean length check (an empty string is falsy, and its length check is
false as well, so the coercion agrees both ways). -/
def minLengthCriteria : Option String → Except JsError Bool
  | none => Except.ok false
  | some s => Except.ok (decide (s.length > 6))

/-- Criteria of source lines 38 and 97: the input differs from its
lowercased form, which throws a TypeError when the input is null. -/
def uppercaseCriteria : Option String → Except JsError Bool
  | none => Except.error (JsError.typeError "Cannot read property toLowerCase of null")
  | some s => Except.ok (decide (jsToLowerCase s ≠ s))

/-- The first rule of source line 37. -/
def minLengthRule : RuleEntry (Option String) :=
  RuleEntry.fn (verify minLengthCriteria "Minimum length is six characters")

/-- The second rule of source line 38, also the sole rule of line 97. -/
def uppercaseRule : RuleEntry (Option String) :=
  RuleEntry.fn (verify uppercaseCriteria "Must contain an uppercase character")

/-- The rule collection of source lines 36-39. -/
def demoRules : List (RuleEntry (Option String)) := [minLengthRule, uppercaseRule]

/-- The rule collection of source lines 96-98, whose sole rule throws on a
null input. -/
def throwingRules : List (RuleEntry (Option String)) := [uppercaseRule]

/-- Helper: validateRules succeeds when every entry is a function. -/
theorem validateRules_ok (rules : List (RuleEntry α))
    (h : ∀ r ∈ rules, r.isFunction = true) : validateRules rules = Except.ok () := by
  have ha : rules.any (fun rule => ! rule.isFunction) = false := by
    cases hc : rules.any (fun rule => ! rule.isFunction) with
    | false => rfl
    | true =>
      obtain ⟨r, hr, hpr⟩ := List.any_eq_true.mp hc
      rw [h r hr] at hpr
      simp at hpr
  simp [validateRules, ha]

/-- Helper: the validated builder returns exactly the closure of the first
builder when every entry is a function. -/
theorem buildPasswordVerifier_ok (rules : List (RuleEntry α))
    (h : ∀ r ∈ rules, r.isFunction = true) :
    buildPasswordVerifier rules = Except.ok (buildPasswordVerifier_v1 rules) := by
  rw [buildPasswordVerifier, validateRules_ok rules h]
  rfl

/-- Helper: running the rules pointwise, when each rule yields the verdict
given by vf, the map of the rules over the input is the map of vf. -/
theorem mapRules_pointwise (rules : List (RuleEntry α)) (input : α)
    (vf : RuleEntry α → Verdict)
    (h : ∀ r ∈ rules, callRule r input = Except.ok (vf r)) :
    mapRules rules input = Except.ok (rules.map vf) := by
  induction rules with
  | nil => rfl
  | cons r rest ih =>
    have hr := h r (List.mem_cons_self r rest)
    have hrest := ih (fun x hx => h x (List.mem_cons_of_mem r hx))
    simp [mapRules, hr, hrest]

/-- Helper: filtering a mapped list is mapping the filtered list. -/
theorem filter_of_map {β γ : Type} (f : β → γ) (p : γ → Bool) (l : List β) :
    (l.map f).filter p = (l.filter (fun b => p (f b))).map f := by
  induction l with
  | nil => rfl
  | cons b rest ih =>
    cases hb : p (f b) <;> simp [List.filter_cons, hb, ih]

/-- Helper: when every rule passes, the mapped verdicts filter to nothing. -/
theorem mapRules_all_pass (rules : List (RuleEntry α)) (input : α)
    (h : ∀ r ∈ rules, ∃ vd, callRule r input = Except.ok vd ∧ vd.passed = true) :
    ∃ vds, mapRules rules input = Except.ok vds
      ∧ vds.filter (fun result => ! result.passed) = [] := by
  induction rules with
  | nil => exact ⟨[], rfl, rfl⟩
  | cons r rest ih =>
    obtain ⟨vd, hc, hp⟩ := h r (List.mem_cons_self r rest)
    obtain ⟨vds, hm, hf⟩ := ih (fun x hx => h x (List.mem_cons_of_mem r hx))
    refine ⟨vd :: vds, ?_, ?_⟩
    · simp [mapRules, hc, hm]
    · simp [List.filter_cons, hp, hf]

/-- Two successive invocations of the verification function returned by the
validated builder, on the same input. -/
def callTwice (rules : List (RuleEntry α)) (input : α) :
    Except JsError
      (Except JsError (List (Option String)) × Except JsError (List (Option String))) :=
  (buildPasswordVerifier rules).map (fun v => (v input, v input))

/-- Claim C1 (refuted by the code, which contradicts its own test): applying
a throwing rule is supposed to be contained, the caller receiving exactly
one generic fallback reason; but the verification function built by
buidPasswordVerifier over the throwing rule set propagates the TypeError of
the rule at the null input, and even on a passing input it throws a
TypeError because errorSafe is handed two arrays instead of functions; the
builder exercised by the test in the source, buildPasswordVerifier,
propagates the TypeError of the rule as well. -/
theorem buid_verifier_propagates_rule_fault :
    (buidPasswordVerifier throwingRules).map (fun v => v none)
      = Except.ok (Except.error
          (JsError.typeError "Cannot read property toLowerCase of null"))
    ∧ (buidPasswordVerifier throwingRules).map (fun v => v (some "ABCDEFG"))
      = Except.ok (Except.error (JsError.typeError "is not a function"))
    ∧ (buildPasswordVerifier throwingRules).map (fun v => v none)
      = Except.ok (Except.error
          (JsError.typeError "Cannot read property toLowerCase of null")) :=
  ⟨rfl, rfl, rfl⟩

/-- Claim C2: constructing the verifier over a collection holding a
non-callable entry fails immediately with the construction-time Error whose
message is "Rules must be a function" (the ConfigurationError of the spec),
before any input is processed; over a collection of callable entries the
construction succeeds and returns the verification closure, with no other
effect. -/
theorem buildPasswordVerifier_validates_eagerly (rules : List (RuleEntry α)) :
    ((∃ r ∈ rules, r.isFunction = false) →
      buildPasswordVerifier rules
        = Except.error (JsError.error "Rules must be a function"))
    ∧ ((∀ r ∈ rules, r.isFunction = true) →
      buildPasswordVerifier rules = Except.ok (buildPasswordVerifier_v1 rules)) := by
  constructor
  · rintro ⟨r, hr, hfn⟩
    have ha : rules.any (fun rule => ! rule.isFunction) = true :=
      List.any_eq_true.mpr ⟨r, hr, by simp [hfn]⟩
    rw [buildPasswordVerifier, validateRules, if_pos ha]
  · intro h
    rw [buildPasswordVerifier, validateRules_ok rules h]
    rfl

/-- Witness for C2: the string entry of source line 56 is rejected at
construction time, and the singleton uppercase rule is accepted. -/
theorem buildPasswordVerifier_validates_eagerly_witness :
    buildPasswordVerifier
        [(RuleEntry.nonFn "Must contain an uppercase character" :
            RuleEntry (Option String))]
      = Except.error (JsError.error "Rules must be a function")
    ∧ buildPasswordVerifier throwingRules
      = Except.ok (buildPasswordVerifier_v1 throwingRules) := by
  constructor
  · exact (buildPasswordVerifier_validates_eagerly _).1
      ⟨RuleEntry.nonFn "Must contain an uppercase character", List.mem_singleton.mpr rfl, rfl⟩
  · refine (buildPasswordVerifier_validates_eagerly _).2 ?_
    rintro r hr
    obtain rfl := List.mem_singleton.mp hr
    rfl

/-- Claim C3: over a valid rule set, on an input for which every rule
yields a passing verdict, the built verification function returns the empty
reason list. -/
theorem verifier_empty_on_all_pass (rules : List (RuleEntry α)) (input : α)
    (hvalid : ∀ r ∈ rules, r.isFunction = true)
    (hpass : ∀ r ∈ rules, ∃ vd, callRule r input = Except.ok vd ∧ vd.passed = true) :
    (buildPasswordVerifier rules).map (fun v => v input)
      = Except.ok (Except.ok []) := by
  obtain ⟨vds, hm, hf⟩ := mapRules_all_pass rules input hpass
  rw [buildPasswordVerifier_ok rules hvalid]
  simp [Except.map, buildPasswordVerifier_v1, hm, hf]

/-- Witness for C3: the uppercase rule passes on the input "Abc" and the
verifier returns the empty list. -/
theorem verifier_empty_on_all_pass_witness :
    (buildPasswordVerifier throwingRules).map (fun v => v (some "Abc"))
      = Except.ok (Except.ok []) := by
  refine verifier_empty_on_all_pass throwingRules (some "Abc") ?_ ?_
  · rintro r hr
    obtain rfl := List.mem_singleton.mp hr
    rfl
  · rintro r hr
    obtain rfl := List.mem_singleton.mp hr
    exact ⟨{ passed := true }, rfl, rfl⟩

/-- Claim C4: over a valid rule set, on an input where each rule yields the
verdict given by vf, the built verification function returns exactly the
reasons of the failing rules, one per failing rule, in rule order. -/
theorem verifier_reasons_in_rule_order (rules : List (RuleEntry α)) (input : α)
    (vf : RuleEntry α → Verdict)
    (hvalid : ∀ r ∈ rules, r.isFunction = true)
    (hvf : ∀ r ∈ rules, callRule r input = Except.ok (vf r)) :
    (buildPasswordVerifier rules).map (fun v => v input)
      = Except.ok (Except.ok
          ((rules.filter (fun r => ! (vf r).passed)).map (fun r => (vf r).reason))) := by
  rw [buildPasswordVerifier_ok rules hvalid]
  have hm := mapRules_pointwise rules input vf hvf
  simp [Except.map, buildPasswordVerifier_v1, hm, filter_of_map, List.map_map]

/-- Witness for C4: on the empty-string input both demo rules fail, and the
two reasons come back in rule order. -/
theorem verifier_reasons_in_rule_order_witness :
    (buildPasswordVerifier demoRules).map (fun v => v (some ""))
      = Except.ok (Except.ok
          [some "Minimum length is six characters",
           some "Must contain an uppercase character"]) := by
  refine (verifier_reasons_in_rule_order demoRules (some "")
      (fun r => match callRule r (some "") with
        | Except.ok vd => vd
        | Except.error _ => { passed := true }) ?_ ?_).trans ?_
  · rintro r hr
    simp only [demoRules, List.mem_cons, List.mem_singleton, List.not_mem_nil, or_false] at hr
    rcases hr with rfl | rfl <;> rfl
  · rintro r hr
    simp only [demoRules, List.mem_cons, List.mem_singleton, List.not_mem_nil, or_false] at hr
    rcases hr with rfl | rfl <;> rfl
  · rfl

/-- Claim C5 (refuted by the code, which contradicts its own comment at
source line 42): on the empty-string input the demo verifier does return
both reasons in rule order, but on the input "Abcdef" it returns the
minimum-length reason instead of the empty list, because the criteria of
line 37 tests length strictly greater than six and the length of "Abcdef"
is exactly six. -/
theorem scenarioB_actual :
    buildPasswordVerifier_v1 demoRules (some "")
      = Except.ok [some "Minimum length is six characters",
                   some "Must contain an uppercase character"]
    ∧ buildPasswordVerifier_v1 demoRules (some "Abcdef")
      = Except.ok [some "Minimum length is six characters"] :=
  ⟨rfl, rfl⟩

/-- Claim C6: a rule built by verify from a criteria and a reason, applied
to an input on which the criteria yields the boolean b without throwing,
returns the passed verdict when b is true and the failed verdict carrying
exactly that reason when b is false. -/
theorem verify_matches_contract (criteria : α → Except JsError Bool)
    (reason : String) (input : α) (b : Bool)
    (h : criteria input = Except.ok b) :
    verify criteria reason input
      = Except.ok (if b then { passed := true }
                   else { passed := false, reason := some reason }) := by
  simp [verify, h, Except.map]

/-- Witness for C6: both branches of the contract at concrete inputs. -/
theorem verify_matches_contract_witness :
    verify (fun _ : Option String => Except.ok true) "You must enter a password!" none
      = Except.ok { passed := true }
    ∧ verify (fun _ : Option String => Except.ok false) "You must enter a password!" none
      = Except.ok { passed := false, reason := some "You must enter a password!" } :=
  ⟨(verify_matches_contract _ _ _ true rfl).trans rfl,
   (verify_matches_contract _ _ _ false rfl).trans rfl⟩

/-- Claim C7 counterexample: the rule factory does not check the reason
text, so a rule built with the empty reason produces a failed verdict whose
reason string is empty. -/
theorem verify_failed_reason_empty_counterexample :
    verify (fun _ : Option String => Except.ok false) "" none
      = Except.ok { passed := false, reason := some "" }
    ∧ String.length "" = 0 :=
  ⟨rfl, rfl⟩

/-- Claim C7 (amended): a failed verdict produced by a verify rule carries
exactly the reason supplied to the factory, so it is non-empty precisely
when the supplied reason is non-empty. -/
theorem verify_failed_carries_supplied_reason (criteria : α → Except JsError Bool)
    (reason : String) (input : α) (vd : Verdict)
    (h : verify criteria reason input = Except.ok vd)
    (hfail : vd.passed = false) :
    vd.reason = some reason := by
  cases hc : criteria input with
  | error e => simp [verify, hc, Except.map] at h
  | ok b =>
    cases b with
    | true =>
      simp [verify, hc, Except.map] at h
      rw [← h] at hfail
      simp at hfail
    | false =>
      simp [verify, hc, Except.map] at h
      rw [← h]

/-- Witness for C7 (amended): the failed verdict of a concrete always-false
rule carries the supplied reason. -/
theorem verify_failed_carries_supplied_reason_witness :
    ({ passed := false, reason := some "Minimum length is six characters" } :
        Verdict).reason
      = some "Minimum length is six characters" :=
  verify_failed_carries_supplied_reason
    (fun _ : Option String => Except.ok false)
    "Minimum length is six characters" none _ rfl rfl

/-- Claim C8: two successive invocations of the same built verification
function on the same input yield identical results; the embedding is a pure
function of the rules and the input, reflecting that the source closes over
the rule list and keeps no mutable state across calls. -/
theorem verifier_idempotent (rules : List (RuleEntry α)) (input : α)
    (p : Except JsError (List (Option String)) × Except JsError (List (Option String)))
    (h : callTwice rules input = Except.ok p) : p.1 = p.2 := by
  cases hb : buildPasswordVerifier rules with
  | error e => simp [callTwice, hb, Except.map] at h
  | ok v =>
    simp [callTwice, hb, Except.map] at h
    rw [← h]

/-- Witness for C8: the two results of calling the uppercase verifier twice
on the input "Abc" agree. -/
theorem verifier_idempotent_witness :
    ((Except.ok [], Except.ok []) :
        Except JsError (List (Option String)) × Except JsError (List (Option String))).1
      = ((Except.ok [], Except.ok []) :
        Except JsError (List (Option String)) × Except JsError (List (Option String))).2 :=
  verifier_idempotent throwingRules (some "Abc") _ rfl

/-- Claim C9: when the func argument, invoked with no arguments, returns a
value without throwing, errorSafe returns undefined rather than that value;
only the catch branch returns a value, namely the result of mapper applied
to the caught error. -/
theorem errorSafe_discards_success (func mapper : JsVal) :
    (∀ v, jsCall func none = Except.ok v →
      errorSafe func mapper = Except.ok JsVal.undef)
    ∧ (∀ e, jsCall func none = Except.error e →
      errorSafe func mapper = jsCall mapper (some e)) := by
  constructor
  · intro v hv
    rw [errorSafe, hv]
  · intro e he
    rw [errorSafe, he]

/-- Witness for C9: a func returning a string yields undefined overall, and
a throwing func hands its error to the mapper. -/
theorem errorSafe_discards_success_witness :
    errorSafe (JsVal.fn (fun _ => Except.ok (JsVal.str "value"))) (JsVal.list [])
      = Except.ok JsVal.undef
    ∧ errorSafe (JsVal.fn (fun _ => Except.error (JsError.error "boom")))
        (JsVal.fn (fun _ => Except.ok (JsVal.str "mapped")))
      = jsCall (JsVal.fn (fun _ => Except.ok (JsVal.str "mapped")))
          (some (JsError.error "boom")) :=
  ⟨(errorSafe_discards_success _ _).1 (JsVal.str "value") rfl,
   (errorSafe_discards_success _ _).2 (JsError.error "boom") rfl⟩

/-- Claim C10: over callable rules that do not throw on the given input,
the standalone two-argument verifyPassword and the function returned by the
validated builder return the same reason list. -/
theorem builder_agrees_with_verifyPassword (rules : List (RuleEntry α)) (input : α)
    (hvalid : ∀ r ∈ rules, r.isFunction = true)
    (hnothrow : ∃ verdicts, mapRules rules input = Except.ok verdicts) :
    ∃ out, verifyPassword rules input = Except.ok out
      ∧ (buildPasswordVerifier rules).map (fun v => v input)
        = Except.ok (Except.ok out) := by
  obtain ⟨vds, hm⟩ := hnothrow
  refine ⟨(vds.filter (fun result => ! result.passed)).map (fun failed => failed.reason),
    ?_, ?_⟩
  · simp [verifyPassword, hm, Except.map]
  · rw [buildPasswordVerifier_ok rules hvalid]
    simp [Except.map, buildPasswordVerifier_v1, hm]

/-- Witness for C10: the demo rules on the input "Abcdef" give the same
output through both paths. -/
theorem builder_agrees_with_verifyPassword_witness :
    ∃ out, verifyPassword demoRules (some "Abcdef") = Except.ok out
      ∧ (buildPasswordVerifier demoRules).map (fun v => v (some "Abcdef"))
        = Except.ok (Except.ok out) := by
  refine builder_agrees_with_verifyPassword demoRules (some "Abcdef") ?_ ?_
  · rintro r hr
    simp only [demoRules, List.mem_cons, List.mem_singleton, List.not_mem_nil, or_false] at hr
    rcases hr with rfl | rfl <;> rfl
  · exact ⟨[{ passed := false, reason := some "Minimum length is six characters" },
            { passed := true }], rfl⟩

end FunctionalSample
